import Mathlib

/-!
Shallow embedding of the benchmark/monitoring harness of
copilot-local-server, together with theorems settling the frozen claims.

Sources embedded:
  * monitoring-dashboard.py  (MonitoringDashboard: calculate_trends,
    display_dashboard status indicators, run loop)
  * scripts/monitor-performance.py (PerformanceMonitor.get_performance_rating)
  * scripts/performance-test.py (PerformanceTester: test_single_stream,
    test_error_scenarios, calculate_metrics)
  * scripts/performance-benchmark.py (PerformanceBenchmark: the three
    benchmark aggregations and their BenchmarkResult records)
  * monitor-streaming.py (StreamingMonitor.test_streaming_request)

Python ints are modelled as Int (Nat where the source can only count up),
Python floats as Rat, absent dictionary keys as Option fields read through
getD with the source's defaults, and raising code as Except.
-/

namespace CopilotHarness

/-- Decidable equality for `Except`, used to evaluate the dashboard model
on concrete inputs. -/
instance {ε α : Type} [DecidableEq ε] [DecidableEq α] :
    DecidableEq (Except ε α) := fun
  | Except.ok a, Except.ok b =>
      match decEq a b with
      | isTrue h => isTrue (congrArg Except.ok h)
      | isFalse h => isFalse (fun c => h (Except.ok.inj c))
  | Except.ok _, Except.error _ => isFalse (fun c => Except.noConfusion c)
  | Except.error _, Except.ok _ => isFalse (fun c => Except.noConfusion c)
  | Except.error e, Except.error f =>
      match decEq e f with
      | isTrue h => isTrue (congrArg Except.error h)
      | isFalse h => isFalse (fun c => h (Except.error.inj c))

/-! ## Python string primitives

The scripts use `str.strip()`, `str.startswith(...)`, slicing `[6:]`,
`str.lower()`, `len(...)` and the `in` substring test.  These are embedded
character-by-character over `String.data` so that every definition
evaluates inside the kernel.  `strip()` is modelled over the ASCII
whitespace characters. -/

/-- Python `str.isspace` restricted to ASCII, the alphabet the harness's
payloads use. -/
def pyIsSpace (c : Char) : Bool :=
  c == ' ' || c == '\t' || c == '\n' || c == '\x0d' ||
  c == '\x0b' || c == '\x0c'

/-- Python `s.strip()`: remove leading and trailing whitespace. -/
def pyStrip (s : String) : String :=
  ⟨((s.data.dropWhile pyIsSpace).reverse.dropWhile pyIsSpace).reverse⟩

/-- Whether the first list leads the second (helper for `startswith`). -/
def leadsWith : List Char → List Char → Bool
  | [], _ => true
  | _ :: _, [] => false
  | a :: as, b :: bs => a == b && leadsWith as bs

/-- Python `s.startswith(p)`. -/
def pyStartsWith (s p : String) : Bool :=
  leadsWith p.data s.data

/-- Python `s[n:]`: drop the first `n` characters. -/
def pySliceFrom (s : String) (n : Nat) : String :=
  ⟨s.data.drop n⟩

/-- Python `s.lower()`. -/
def pyLower (s : String) : String :=
  ⟨s.data.map Char.toLower⟩

/-- Python `s.upper()`. -/
def pyUpper (s : String) : String :=
  ⟨s.data.map Char.toUpper⟩

/-- Python `len(s)`: the number of code points. -/
def pyLen (s : String) : Nat :=
  s.data.length

/-- Whether `needle` occurs as a contiguous run of `hay` (helper for the
Python `in` substring test). -/
def hasSub (needle : List Char) : List Char → Bool
  | [] => needle.isEmpty
  | c :: rest => leadsWith needle (c :: rest) || hasSub needle rest

/-- Python `sub in s`. -/
def pyContains (sub s : String) : Bool :=
  hasSub sub.data s.data

/-! ## Data model: metrics snapshots (monitoring-dashboard.py) -/

/-- The `streams` group of a `/metrics` snapshot.  `active` and `total` are
accessed by direct indexing in `calculate_trends`, so they are required
fields; the remaining keys are read through `.get` with a default and are
modelled as `Option`. -/
structure StreamsGroup where
  active : Int
  total : Int
  maxConcurrent : Option Int
  peakConcurrent : Option Int
  successful : Option Int
  failed : Option Int
  successRate : Option ℚ
deriving Repr, DecidableEq

/-- The `memory` group of a `/metrics` snapshot; every key is read through
`.get(..., 0)`. -/
structure MemoryGroup where
  heapUsed : Option Int
  heapTotal : Option Int
  rss : Option Int
  external : Option Int
deriving Repr, DecidableEq

/-- A `/metrics` snapshot as consumed by the dashboard. -/
structure Snapshot where
  streams : StreamsGroup
  memory : MemoryGroup
deriving Repr, DecidableEq

/-- Health object returned by `GET /`; only `status` feeds a computation. -/
structure Health where
  status : Option String
deriving Repr, DecidableEq

/-- The trends dictionary built by `MonitoringDashboard.calculate_trends`. -/
structure Trends where
  streams : String
  requests : String
deriving Repr, DecidableEq

/-- `MonitoringDashboard.calculate_trends` (monitoring-dashboard.py lines
62-91).  `last` is the dashboard's `self.last_metrics` slot. -/
def calculate_trends (last : Option Snapshot) (current : Snapshot) : Trends :=
  match last with
  | some lm =>
      let current_streams := current.streams.active
      let last_streams := lm.streams.active
      let streamsTrend :=
        if current_streams > last_streams then
          "↗ +" ++ toString (current_streams - last_streams)
        else if current_streams < last_streams then
          "↘ -" ++ toString (last_streams - current_streams)
        else
          "→ stable"
      let current_requests := current.streams.total
      let last_requests := lm.streams.total
      let new_requests := current_requests - last_requests
      let requestsTrend :=
        if new_requests > 0 then "↗ +" ++ toString new_requests
        else "→ stable"
      ⟨streamsTrend, requestsTrend⟩
  | none => ⟨"→ initial", "→ initial"⟩

/-- The computed (branch-dependent) parts of one dashboard rendering. -/
structure DashView where
  health_line : String
  trends : Trends
  usage_percent : Option ℚ
  capacity_status : String
  capacity_percent : ℚ
  success_status : String
  memory_status : String
deriving Repr, DecidableEq

/-- `MonitoringDashboard.display_dashboard` (monitoring-dashboard.py lines
93-209), reduced to its computed indicator values.  The only expression in
the source that can raise on a well-shaped snapshot is the stream-capacity
division `active / streams.get('maxConcurrent', 1)`, which raises
`ZeroDivisionError` exactly when the looked-up value is `0`; that raise is
modelled as `Except.error ()`. -/
def display_dashboard (last : Option Snapshot) (metrics : Snapshot)
    (health : Option Health) : Except Unit DashView :=
  let health_line :=
    match health with
    | some h => "✅ " ++ pyUpper (h.status.getD "unknown")
    | none => "❌ UNREACHABLE"
  let trends := calculate_trends last metrics
  let usage_percent :=
    if metrics.memory.heapTotal.getD 0 > 0 then
      some (((metrics.memory.heapUsed.getD 0 : ℚ) /
        (metrics.memory.heapTotal.getD 0 : ℚ)) * 100)
    else none
  let active := metrics.streams.active
  let max_streams := metrics.streams.maxConcurrent.getD 1
  if max_streams = 0 then Except.error () else
  let capacity_percent := ((active : ℚ) / (max_streams : ℚ)) * 100
  let capacity_status :=
    if capacity_percent < 50 then "🟢 LOW"
    else if capacity_percent < 80 then "🟡 MEDIUM"
    else "🔴 HIGH"
  let success_rate := metrics.streams.successRate.getD 100
  let success_status :=
    if success_rate ≥ 95 then "🟢 EXCELLENT"
    else if success_rate ≥ 90 then "🟡 GOOD"
    else "🔴 POOR"
  let heap_used_mb := (metrics.memory.heapUsed.getD 0 : ℚ) / (1024 * 1024)
  let memory_status :=
    if heap_used_mb < 500 then "🟢 NORMAL"
    else if heap_used_mb < 1000 then "🟡 ELEVATED"
    else "🔴 HIGH"
  Except.ok ⟨health_line, trends, usage_percent, capacity_status,
    capacity_percent, success_status, memory_status⟩

/-- What one cycle of `MonitoringDashboard.run` fetched: `metrics` is the
result of `get_metrics` and `health` of `get_health`; both helpers catch
every exception and return `None` on any failure. -/
structure CycleInput where
  metrics : Option Snapshot
  health : Option Health
deriving Repr

/-- What one cycle of `MonitoringDashboard.run` rendered. -/
inductive CycleView where
  | unreachable
  | dash (v : DashView)
deriving Repr, DecidableEq

/-- One iteration of the `while True` body of `MonitoringDashboard.run`
(monitoring-dashboard.py lines 218-231).  A metrics-fetch failure renders
the retrying view and keeps `last_metrics`; a successful fetch renders the
dashboard and then stores the snapshot; an exception escaping the body is
caught by the generic handler at lines 236-238, which exits with code 1
(modelled as `Except.error 1`). -/
def runStep (last : Option Snapshot) (ci : CycleInput) :
    Except Nat (Option Snapshot × CycleView) :=
  match ci.metrics with
  | some m =>
      match display_dashboard last m ci.health with
      | Except.ok v => Except.ok (some m, CycleView.dash v)
      | Except.error _ => Except.error 1
  | none => Except.ok (last, CycleView.unreachable)

/-- Finite unrolling of the `while True` loop of `MonitoringDashboard.run`:
the loop is executed once per fetched `CycleInput`, threading the
`last_metrics` slot, and stops early only when an iteration exits the
process. -/
def runLoop (last : Option Snapshot) :
    List CycleInput → Except Nat (Option Snapshot × List CycleView)
  | [] => Except.ok (last, [])
  | ci :: rest =>
      match runStep last ci with
      | Except.error c => Except.error c
      | Except.ok (last2, v) =>
          (runLoop last2 rest).map (fun p => (p.1, v :: p.2))

/-! ## Request executor and decoder (scripts/performance-test.py) -/

/-- `TestResult` (performance-test.py lines 19-26). -/
structure TestResult where
  test_name : String
  success : Bool
  duration : ℚ
  chunks_received : Nat
  bytes_received : Nat
  error_message : String := ""
deriving Repr, DecidableEq

/-- One event of a streamed HTTP body as seen by the per-line loop: either
a decoded line, or the point at which the transport raised (connection
reset, timeout, ...) with the exception's text. -/
inductive StreamEvent where
  | line (s : String)
  | interrupted (msg : String)
deriving Repr, DecidableEq

/-- An HTTP response: status code, the body text used by non-200 branches,
and the streamed body events used by the 200 branch. -/
structure HttpResponse where
  status : Nat
  errorText : String
  events : List StreamEvent
deriving Repr, DecidableEq

/-- Result of attempting an HTTP request: the post itself may raise before
any response exists. -/
inductive HttpAttempt where
  | failed (msg : String)
  | got (r : HttpResponse)
deriving Repr, DecidableEq

/-- The per-line streaming loop of `PerformanceTester.test_single_stream`
(performance-test.py lines 78-89), parametrised by `parseOk`, the predicate
"`json.loads` succeeds on this payload" (the parsed object is never used).
Accumulates `chunks_received` and `bytes_received`; returns the transport
error text if iteration raised mid-stream. -/
def process_stream_lines (parseOk : String → Bool) :
    List StreamEvent → Nat → Nat → Nat × Nat × Option String
  | [], chunks, bytes => (chunks, bytes, none)
  | StreamEvent.interrupted msg :: _, chunks, bytes => (chunks, bytes, some msg)
  | StreamEvent.line l :: rest, chunks, bytes =>
      let line_str := pyStrip l
      if pyStartsWith line_str "data: " then
        let data := pyStrip (pySliceFrom line_str 6)
        if data = "[DONE]" then (chunks, bytes, none)
        else if parseOk data then
          process_stream_lines parseOk rest (chunks + 1) (bytes + pyLen data)
        else
          process_stream_lines parseOk rest chunks bytes
      else process_stream_lines parseOk rest chunks bytes

/-- `PerformanceTester.test_single_stream` (performance-test.py lines
47-107).  `dur` stands for the measured wall-clock elapsed time at the
point the result record is built. -/
def test_single_stream (parseOk : String → Bool) (test_id : Nat)
    (attempt : HttpAttempt) (dur : ℚ) : TestResult :=
  match attempt with
  | HttpAttempt.failed msg =>
      { test_name := "stream_" ++ toString test_id, success := false,
        duration := dur, chunks_received := 0, bytes_received := 0,
        error_message := msg }
  | HttpAttempt.got r =>
      if r.status ≠ 200 then
        { test_name := "stream_" ++ toString test_id, success := false,
          duration := dur, chunks_received := 0, bytes_received := 0,
          error_message := "HTTP " ++ toString r.status ++ ": " ++ r.errorText }
      else
        match process_stream_lines parseOk r.events 0 0 with
        | (chunks, bytes, none) =>
            { test_name := "stream_" ++ toString test_id, success := true,
              duration := dur, chunks_received := chunks,
              bytes_received := bytes }
        | (chunks, bytes, some msg) =>
            { test_name := "stream_" ++ toString test_id, success := false,
              duration := dur, chunks_received := chunks,
              bytes_received := bytes, error_message := msg }

/-- Python's `"error" in content.lower()` (performance-test.py line 197). -/
def containsError (content : String) : Bool :=
  pyContains "error" (pyLower content)

/-- What one error-injection request produced: a response, or an exception
raised by the post. -/
inductive ScenarioAttempt where
  | responded (status : Nat) (body : String)
  | raised (msg : String)
deriving Repr, DecidableEq

/-- One iteration of `PerformanceTester.test_error_scenarios`
(performance-test.py lines 183-217): HTTP 200 passes only when the body
embeds an error indicator; any non-200 status or raised exception counts
as the expected error and passes. -/
def error_scenario_result (i : Nat) (a : ScenarioAttempt) (dur : ℚ) :
    TestResult :=
  match a with
  | ScenarioAttempt.responded status body =>
      let success := if status = 200 then containsError body else true
      { test_name := "error_" ++ toString i, success := success,
        duration := dur, chunks_received := 0,
        bytes_received := if status ≠ 200 then pyLen body else 0,
        error_message := if success then "" else "Status: " ++ toString status }
  | ScenarioAttempt.raised msg =>
      { test_name := "error_" ++ toString i, success := true,
        duration := dur, chunks_received := 0, bytes_received := 0,
        error_message := msg }

/-! ## Metrics aggregation (scripts/performance-test.py) -/

/-- `PerformanceMetrics` (performance-test.py lines 28-40). -/
structure PerformanceMetrics where
  total_tests : Nat
  successful_tests : Nat
  failed_tests : Nat
  average_duration : ℚ
  min_duration : ℚ
  max_duration : ℚ
  total_chunks : Nat
  total_bytes : Nat
  throughput_chunks_per_sec : ℚ
  throughput_bytes_per_sec : ℚ
  success_rate : ℚ
deriving Repr, DecidableEq

/-- Python's `min(l)` over a non-empty list of rationals. -/
def qmin : List ℚ → ℚ
  | [] => 0
  | x :: xs => xs.foldl min x

/-- Python's `max(l)` over a non-empty list of rationals. -/
def qmax : List ℚ → ℚ
  | [] => 0
  | x :: xs => xs.foldl max x

/-- `PerformanceTester.calculate_metrics` (performance-test.py lines
221-247). -/
def calculate_metrics (results : List TestResult) : PerformanceMetrics :=
  if results = [] then ⟨0, 0, 0, 0, 0, 0, 0, 0, 0, 0, 0⟩
  else
    let successful_results := results.filter (fun r => r.success)
    let failed_results := results.filter (fun r => !r.success)
    let durations :=
      (results.filter (fun r => decide (r.duration > 0))).map
        (fun r => r.duration)
    let total_duration := durations.sum
    let total_chunks := (results.map (fun r => r.chunks_received)).sum
    let total_bytes := (results.map (fun r => r.bytes_received)).sum
    { total_tests := results.length
      successful_tests := successful_results.length
      failed_tests := failed_results.length
      average_duration :=
        if durations ≠ [] then durations.sum / (durations.length : ℚ) else 0
      min_duration := if durations ≠ [] then qmin durations else 0
      max_duration := if durations ≠ [] then qmax durations else 0
      total_chunks := total_chunks
      total_bytes := total_bytes
      throughput_chunks_per_sec :=
        if total_duration > 0 then (total_chunks : ℚ) / total_duration else 0
      throughput_bytes_per_sec :=
        if total_duration > 0 then (total_bytes : ℚ) / total_duration else 0
      success_rate :=
        if results.length ≠ 0 then
          ((successful_results.length : ℚ) / (results.length : ℚ)) * 100
        else 0 }

/-! ## Benchmark aggregation (scripts/performance-benchmark.py) -/

/-- `BenchmarkResult` (performance-benchmark.py lines 15-23). -/
structure BenchmarkResult where
  test_name : String
  requests_per_second : ℚ
  average_response_time : ℚ
  p95_response_time : ℚ
  success_rate : ℚ
  total_requests : Int
  failed_requests : Int
deriving Repr, DecidableEq

/-- What one benchmark request produced: `ok t` for HTTP 200 with measured
response time `t`, `failed` for a non-200 status or a raised exception
(both only increment the failure counter). -/
inductive ReqOutcome where
  | ok (t : ℚ)
  | failed
deriving Repr, DecidableEq

/-- The `response_times` list accumulated by a sequential benchmark loop:
one appended time per 200 response. -/
def ec_response_times (rs : List ReqOutcome) : List ℚ :=
  rs.filterMap (fun r =>
    match r with
    | ReqOutcome.ok t => some t
    | ReqOutcome.failed => none)

/-- The `failed_requests` counter accumulated by a sequential benchmark
loop: one increment per non-200 or raised request. -/
def ec_failed_count (rs : List ReqOutcome) : Nat :=
  (rs.filter (fun r =>
    match r with
    | ReqOutcome.ok _ => false
    | ReqOutcome.failed => true)).length

/-- Python's `statistics.mean` guarded by the caller's
`if response_times else 0`. -/
def mean_or_zero (l : List ℚ) : ℚ :=
  if l = [] then 0 else l.sum / (l.length : ℚ)

/-- Python's `statistics.quantiles(data, n=n)` with the default
`'exclusive'` method: sort ascending, then linearly interpolate the
`n - 1` cut points of the sorted data. -/
def py_quantiles (data : List ℚ) (n : Nat) : List ℚ :=
  let d := data.mergeSort (fun a b => decide (a ≤ b))
  let ld := d.length
  let m := ld + 1
  (List.range (n - 1)).map (fun k =>
    let i := k + 1
    let j0 := i * m / n
    let j := if j0 < 1 then 1 else if j0 > ld - 1 then ld - 1 else j0
    let delta : Int := (i * m : Int) - (j * n : Int)
    (d.getD (j - 1) 0 * ((n : ℚ) - (delta : ℚ)) + d.getD j 0 * (delta : ℚ))
      / (n : ℚ))

/-- The P95 expression shared by all three benchmarks:
`statistics.quantiles(response_times, n=20)[18] if len(response_times) >= 20
else 0`. -/
def p95_or_zero (response_times : List ℚ) : ℚ :=
  if response_times.length ≥ 20 then (py_quantiles response_times 20).getD 18 0
  else 0

/-- `PerformanceBenchmark.benchmark_endpoint_caching` (performance-benchmark.py
lines 29-76), as a function of the per-iteration request outcomes and the
measured wall-clock span `total_time`; `iterations` is the length of `rs`
because the loop body records exactly one outcome per iteration. -/
def benchmark_endpoint_caching (rs : List ReqOutcome) (total_time : ℚ) :
    BenchmarkResult :=
  let response_times := ec_response_times rs
  let iterations := rs.length
  let successful_requests := response_times.length
  { test_name := "Endpoint Caching"
    requests_per_second := (successful_requests : ℚ) / total_time
    average_response_time := mean_or_zero response_times
    p95_response_time := p95_or_zero response_times
    success_rate := ((successful_requests : ℚ) / (iterations : ℚ)) * 100
    total_requests := (iterations : Int)
    failed_requests := (ec_failed_count rs : Int) }

/-- The flattened `all_response_times` of
`PerformanceBenchmark.benchmark_concurrent_requests`: each client returns
its own `response_times` list (skipping non-200 responses and raised
requests, modelled as `none`), and the lists are concatenated. -/
def all_response_times (client_results : List (List (Option ℚ))) : List ℚ :=
  (client_results.map (fun times => times.filterMap id)).flatten

/-- `PerformanceBenchmark.benchmark_concurrent_requests`
(performance-benchmark.py lines 78-124), as a function of each client's
per-request outcomes and the measured wall-clock span. -/
def benchmark_concurrent_requests (client_results : List (List (Option ℚ)))
    (concurrent requests_per_client : Nat) (total_time : ℚ) :
    BenchmarkResult :=
  let times := all_response_times client_results
  let total_requests := concurrent * requests_per_client
  let successful_requests := times.length
  { test_name := "Concurrent Requests"
    requests_per_second := (successful_requests : ℚ) / total_time
    average_response_time := mean_or_zero times
    p95_response_time := p95_or_zero times
    success_rate := ((successful_requests : ℚ) / (total_requests : ℚ)) * 100
    total_requests := (total_requests : Int)
    failed_requests := (total_requests : Int) - (successful_requests : Int) }

/-- `PerformanceBenchmark.benchmark_streaming_performance`
(performance-benchmark.py lines 126-173): the same accumulation shape as
the endpoint-caching loop (one `ok`/`failed` outcome per iteration). -/
def benchmark_streaming_performance (rs : List ReqOutcome) (total_time : ℚ) :
    BenchmarkResult :=
  let response_times := ec_response_times rs
  let iterations := rs.length
  let successful_requests := response_times.length
  { test_name := "Streaming Performance"
    requests_per_second := (successful_requests : ℚ) / total_time
    average_response_time := mean_or_zero response_times
    p95_response_time := p95_or_zero response_times
    success_rate := ((successful_requests : ℚ) / (iterations : ℚ)) * 100
    total_requests := (iterations : Int)
    failed_requests := (ec_failed_count rs : Int) }

/-! ## Streaming monitor executor (monitor-streaming.py) -/

/-- The `delta` object of a streamed chunk, `chunk["choices"][0].get("delta",
{}).get("content")`. -/
structure MSDelta where
  content : Option String
deriving Repr, DecidableEq

/-- One element of a chunk's `choices` array. -/
structure MSChoice where
  delta : Option MSDelta
deriving Repr, DecidableEq

/-- A parsed streamed chunk as consumed by
`StreamingMonitor.test_streaming_request`: only the `choices` key is read,
and it may be absent. -/
structure MSChunk where
  choices : Option (List MSChoice)
deriving Repr, DecidableEq

/-- The error value stored in the result dictionary's `error` slot. -/
inductive ErrInfo where
  | parsedBody (raw : String)
  | httpStatus (status : Nat)
  | transport (msg : String)
deriving Repr, DecidableEq

/-- The result dictionary built by
`StreamingMonitor.test_streaming_request`. -/
structure MSResult where
  request_id : Nat
  status : Nat
  chunks : Nat
  content : String
  error : Option ErrInfo
  duration : ℚ
deriving Repr, DecidableEq

/-- The per-line streaming loop of `StreamingMonitor.test_streaming_request`
(monitor-streaming.py lines 50-65), parametrised by `parse`, the model of
`json.loads` (`none` = raises `JSONDecodeError`).  Accumulates the chunk
count and concatenated content; returns the transport error text if
iteration raised mid-stream. -/
def ms_process_events (parse : String → Option MSChunk) :
    List StreamEvent → Nat → String → Nat × String × Option String
  | [], chunks, content => (chunks, content, none)
  | StreamEvent.interrupted msg :: _, chunks, content => (chunks, content, some msg)
  | StreamEvent.line l :: rest, chunks, content =>
      if l = "" then ms_process_events parse rest chunks content
      else
        let line_str := pyStrip l
        if pyStartsWith line_str "data: " then
          let data := pyStrip (pySliceFrom line_str 6)
          if data = "[DONE]" then (chunks, content, none)
          else
            match parse data with
            | some chunk =>
                let content2 :=
                  match chunk.choices with
                  | some (ch :: _) =>
                      match (ch.delta.getD ⟨none⟩).content with
                      | some delta_content =>
                          if delta_content ≠ "" then content ++ delta_content
                          else content
                      | none => content
                  | _ => content
                ms_process_events parse rest (chunks + 1) content2
            | none => ms_process_events parse rest chunks content
        else ms_process_events parse rest chunks content

/-- `StreamingMonitor.test_streaming_request` (monitor-streaming.py lines
19-85).  `jsonBodyOk` models whether `response.json()` succeeds on the
non-200 body.  The catch-all handler at lines 77-85 builds a fresh result
dictionary with `status = 0`, `chunks = 0` and empty content, discarding
whatever had accumulated. -/
def test_streaming_request (parse : String → Option MSChunk)
    (jsonBodyOk : String → Bool) (request_id : Nat) (attempt : HttpAttempt)
    (dur : ℚ) : MSResult :=
  match attempt with
  | HttpAttempt.failed msg =>
      ⟨request_id, 0, 0, "", some (ErrInfo.transport msg), dur⟩
  | HttpAttempt.got r =>
      if r.status = 200 then
        match ms_process_events parse r.events 0 "" with
        | (chunks, content, none) => ⟨request_id, r.status, chunks, content, none, dur⟩
        | (_, _, some msg) => ⟨request_id, 0, 0, "", some (ErrInfo.transport msg), dur⟩
      else
        let err :=
          if jsonBodyOk r.errorText then ErrInfo.parsedBody r.errorText
          else ErrInfo.httpStatus r.status
        ⟨request_id, r.status, 0, "", some err, dur⟩

/-! ## Performance rating (scripts/monitor-performance.py) -/

/-- `PerformanceMonitor.get_performance_rating` (monitor-performance.py
lines 121-134): ordered threshold rows, first match wins. -/
def get_performance_rating (response_time success_rate memory_usage : ℚ) :
    String :=
  if response_time < 1000 ∧ success_rate ≥ 95 ∧ memory_usage < 500 then
    "🟢 EXCELLENT"
  else if response_time < 2000 ∧ success_rate ≥ 90 ∧ memory_usage < 750 then
    "🟡 GOOD"
  else if response_time < 5000 ∧ success_rate ≥ 80 then
    "🟠 FAIR"
  else
    "🔴 POOR"

/-! ## Concrete inputs used by counterexamples and witnesses -/

/-- A snapshot with 2 active streams and 5 total requests. -/
def trendPrev : Snapshot :=
  ⟨⟨2, 5, none, none, none, none, none⟩, ⟨none, none, none, none⟩⟩

/-- A snapshot with 5 active streams and 2 total requests. -/
def trendCur : Snapshot :=
  ⟨⟨5, 2, none, none, none, none, none⟩, ⟨none, none, none, none⟩⟩

/-- A well-shaped snapshot that explicitly reports `maxConcurrent = 0`. -/
def zeroCapSnap : Snapshot :=
  ⟨⟨0, 0, some 0, none, none, none, none⟩, ⟨none, none, none, none⟩⟩

/-- A snapshot in which the `maxConcurrent` key is absent. -/
def absentCapSnap : Snapshot :=
  ⟨⟨0, 0, none, none, none, none, none⟩, ⟨none, none, none, none⟩⟩

/-- A snapshot used to drive one successful dashboard cycle. -/
def dashSnap : Snapshot :=
  ⟨⟨0, 0, some 1, none, none, none, none⟩, ⟨none, none, none, none⟩⟩

/-- The view `display_dashboard` renders for `dashSnap` with no previous
snapshot and no health response. -/
def dashView0 : DashView :=
  ⟨"❌ UNREACHABLE", ⟨"→ initial", "→ initial"⟩, none, "🟢 LOW", 0,
    "🟢 EXCELLENT", "🟢 NORMAL"⟩

/-- A `json.loads` model that parses every payload into one chunk whose
first choice carries delta content "a". -/
def msParseConst : String → Option MSChunk :=
  fun _ => some ⟨some [⟨some ⟨some "a"⟩⟩]⟩

/-- A streamed body that delivers one well-formed chunk and is then cut by
a transport error. -/
def resetEvents : List StreamEvent :=
  [StreamEvent.line "data: x", StreamEvent.interrupted "Connection reset by peer"]

/-! ## Helper lemmas -/

/-- Splitting a list by a Boolean predicate partitions its length. -/
theorem filter_split_length {α : Type} (l : List α) (p : α → Bool) :
    (l.filter p).length + (l.filter (fun a => !p a)).length = l.length := by
  induction l with
  | nil => rfl
  | cons a t ih =>
      cases h : p a <;> simp [List.filter_cons, h] <;> omega

/-- Each benchmark-loop iteration records exactly one outcome, so the
response-time count and the failure count partition the iteration count. -/
theorem ec_split_length (rs : List ReqOutcome) :
    (ec_response_times rs).length + ec_failed_count rs = rs.length := by
  induction rs with
  | nil => rfl
  | cons a t ih =>
      cases a <;>
        simp [ec_response_times, ec_failed_count, List.filterMap_cons,
          List.filter_cons] at ih ⊢ <;> omega

/-- A ratio of counts scaled to a percentage lies in `[0, 100]` whenever
the numerator is at most the denominator (with the `0/0 = 0` convention
of the rationals). -/
theorem rate_bounds (s n : Nat) (hsn : s ≤ n) :
    0 ≤ (s : ℚ) / (n : ℚ) * 100 ∧ (s : ℚ) / (n : ℚ) * 100 ≤ 100 := by
  rcases Nat.eq_zero_or_pos n with hn | hn
  · subst hn
    interval_cases s
    norm_num
  · have hn0 : (0 : ℚ) < (n : ℚ) := by exact_mod_cast hn
    constructor
    · positivity
    · have h1 : (s : ℚ) / (n : ℚ) ≤ 1 :=
        (div_le_one hn0).mpr (by exact_mod_cast hsn)
      calc (s : ℚ) / (n : ℚ) * 100 ≤ 1 * 100 :=
            mul_le_mul_of_nonneg_right h1 (by norm_num)
        _ = 100 := by norm_num

/-- A stream consumed to the end without a transport interruption leaves
the decoder loop with no recorded error. -/
theorem process_lines_complete (parseOk : String → Bool) (lines : List String) :
    ∀ chunks bytes : Nat, ∃ c2 b2 : Nat,
      process_stream_lines parseOk (lines.map StreamEvent.line) chunks bytes
        = (c2, b2, none) := by
  induction lines with
  | nil => exact fun chunks bytes => ⟨chunks, bytes, rfl⟩
  | cons l rest ih =>
      intro chunks bytes
      simp only [List.map_cons, process_stream_lines]
      split_ifs with h1 h2 h3
      · exact ⟨chunks, bytes, rfl⟩
      · exact ih _ _
      · exact ih _ _
      · exact ih _ _

/-- If every payload fails to parse, the decoder loop changes nothing. -/
theorem process_lines_all_malformed (parseOk : String → Bool)
    (hpm : ∀ x, parseOk x = false) (lines : List String) :
    ∀ chunks bytes : Nat,
      process_stream_lines parseOk (lines.map StreamEvent.line) chunks bytes
        = (chunks, bytes, none) := by
  induction lines with
  | nil => exact fun chunks bytes => rfl
  | cons l rest ih =>
      intro chunks bytes
      simp only [List.map_cons, process_stream_lines]
      split_ifs with h1 h2 h3
      · rfl
      · rw [hpm] at h3
        exact absurd h3 (by simp)
      · exact ih _ _
      · exact ih _ _

/-! ## Claim theorems -/

/-- C1 (counterexample): the claim says every counter's decrease is
rendered as a down-marker with signed magnitude, but for the requests
counter (`streams.total`) a decrease of 3 (from 5 down to 2) is rendered
as the stable-marker `"→ stable"`, not as `"↘ -3"`. -/
theorem c1_trend_counterexample :
    (calculate_trends (some trendPrev) trendCur).requests = "→ stable"
    ∧ trendCur.streams.total - trendPrev.streams.total = -3
    ∧ (calculate_trends (some trendPrev) trendCur).requests
        ≠ "↘ -" ++ toString (3 : Int) := by
  decide

/-- C1 (amended): with no previous snapshot both trend fields report
`"→ initial"`.  With a previous snapshot the active-streams counter is
rendered as an up-marker with signed magnitude on increase (previous
active = 2, current active = 5 giving `"↗ +3"` is an instance), a
down-marker with signed magnitude on decrease and the stable-marker on
equality; the requests counter (`streams.total`) is rendered as an
up-marker with signed magnitude on increase and as the stable-marker on
both decrease and equality. -/
theorem c1_trends_amended (prev cur : Snapshot) :
    (calculate_trends none cur = ⟨"→ initial", "→ initial"⟩)
    ∧ (prev.streams.active < cur.streams.active →
        (calculate_trends (some prev) cur).streams
          = "↗ +" ++ toString (cur.streams.active - prev.streams.active))
    ∧ (cur.streams.active < prev.streams.active →
        (calculate_trends (some prev) cur).streams
          = "↘ -" ++ toString (prev.streams.active - cur.streams.active))
    ∧ (cur.streams.active = prev.streams.active →
        (calculate_trends (some prev) cur).streams = "→ stable")
    ∧ (prev.streams.total < cur.streams.total →
        (calculate_trends (some prev) cur).requests
          = "↗ +" ++ toString (cur.streams.total - prev.streams.total))
    ∧ (cur.streams.total ≤ prev.streams.total →
        (calculate_trends (some prev) cur).requests = "→ stable") := by
  refine ⟨rfl, ?_, ?_, ?_, ?_, ?_⟩ <;> intro h <;>
    simp only [calculate_trends] <;> split_ifs <;>
    first | rfl | omega

/-- C1 (witness): instantiating the amended theorem at previous
active = 2, current active = 5 yields the spec's `"↗ +3"` increase, and a
fresh dashboard reports the initial markers. -/
theorem c1_trends_amended_witness :
    calculate_trends none trendCur = ⟨"→ initial", "→ initial"⟩
    ∧ (calculate_trends (some trendPrev) trendCur).streams
        = "↗ +" ++ toString ((5 : Int) - 2) := by
  have h := c1_trends_amended trendPrev trendCur
  exact ⟨h.1, h.2.1 (by decide)⟩

/-- C5: an error-injection scenario that receives HTTP 200 with a body
containing no error indicator is classified as failed; a non-200 response
or a 200 body embedding an error indicator is classified as passed. -/
theorem c5_error_scenario_inversion (i status : Nat) (body : String) (dur : ℚ) :
    (status = 200 → containsError body = false →
      (error_scenario_result i (ScenarioAttempt.responded status body) dur).success
        = false)
    ∧ (status ≠ 200 →
      (error_scenario_result i (ScenarioAttempt.responded status body) dur).success
        = true)
    ∧ (status = 200 → containsError body = true →
      (error_scenario_result i (ScenarioAttempt.responded status body) dur).success
        = true) := by
  refine ⟨?_, ?_, ?_⟩
  · intro h200 herr
    simp [error_scenario_result, h200, herr]
  · intro hne
    simp [error_scenario_result, hne]
  · intro h200 herr
    simp [error_scenario_result, h200, herr]

/-- C5 (witness): the empty-model scenario with an HTTP 200 response whose
body has no error indicator is a failed test, and the same scenario with
an HTTP 400 response is a passed test. -/
theorem c5_error_scenario_inversion_witness :
    (error_scenario_result 0 (ScenarioAttempt.responded 200 "{}") 1).success
      = false
    ∧ (error_scenario_result 0 (ScenarioAttempt.responded 400 "bad request") 1).success
      = true := by
  exact ⟨(c5_error_scenario_inversion 0 200 "{}" 1).1 rfl (by decide),
    (c5_error_scenario_inversion 0 400 "bad request" 1).2.1 (by decide)⟩

/-- C10: a well-shaped snapshot that explicitly reports
`streams.maxConcurrent = 0` makes the stream-capacity computation divide
by zero, so rendering raises and the surrounding loop's generic handler
exits with code 1; the default of 1 only guards the absent-key case, for
which rendering succeeds. -/
theorem c10_capacity_division_by_zero :
    zeroCapSnap.streams.maxConcurrent = some 0
    ∧ display_dashboard none zeroCapSnap none = Except.error ()
    ∧ runStep none ⟨some zeroCapSnap, none⟩ = Except.error 1
    ∧ absentCapSnap.streams.maxConcurrent = none
    ∧ display_dashboard none absentCapSnap none = Except.ok dashView0 := by
  refine ⟨rfl, by decide, by decide, rfl, ?_⟩
  norm_num [display_dashboard, calculate_trends, absentCapSnap, dashView0]

/-- C8: the rating classifier always lands in one of the four tiers, and
the threshold rows are evaluated strictest-first with first-match-wins
semantics: each later row's tier is produced exactly when its row matches
and every earlier row failed. -/
theorem c8_rating_first_match_wins (rt sr mu : ℚ) :
    (get_performance_rating rt sr mu = "🟢 EXCELLENT"
      ∨ get_performance_rating rt sr mu = "🟡 GOOD"
      ∨ get_performance_rating rt sr mu = "🟠 FAIR"
      ∨ get_performance_rating rt sr mu = "🔴 POOR")
    ∧ (get_performance_rating rt sr mu = "🟢 EXCELLENT"
        ↔ (rt < 1000 ∧ sr ≥ 95 ∧ mu < 500))
    ∧ (get_performance_rating rt sr mu = "🟡 GOOD"
        ↔ (¬(rt < 1000 ∧ sr ≥ 95 ∧ mu < 500)
            ∧ (rt < 2000 ∧ sr ≥ 90 ∧ mu < 750)))
    ∧ (get_performance_rating rt sr mu = "🟠 FAIR"
        ↔ (¬(rt < 1000 ∧ sr ≥ 95 ∧ mu < 500)
            ∧ ¬(rt < 2000 ∧ sr ≥ 90 ∧ mu < 750)
            ∧ (rt < 5000 ∧ sr ≥ 80)))
    ∧ (get_performance_rating rt sr mu = "🔴 POOR"
        ↔ (¬(rt < 1000 ∧ sr ≥ 95 ∧ mu < 500)
            ∧ ¬(rt < 2000 ∧ sr ≥ 90 ∧ mu < 750)
            ∧ ¬(rt < 5000 ∧ sr ≥ 80))) := by
  unfold get_performance_rating
  split_ifs with h1 h2 h3 <;>
    refine ⟨by tauto, ?_, ?_, ?_, ?_⟩ <;>
    constructor <;>
    simp_all

/-- C2: every BenchmarkResult built from fewer than 20 successful response
times reports a P95 of 0, for all three benchmark aggregations. -/
theorem c2_p95_small_sample_zero (rs : List ReqOutcome)
    (crs : List (List (Option ℚ))) (c r : Nat) (t1 t2 t3 : ℚ)
    (h1 : (ec_response_times rs).length < 20)
    (h2 : (all_response_times crs).length < 20) :
    (benchmark_endpoint_caching rs t1).p95_response_time = 0
    ∧ (benchmark_concurrent_requests crs c r t2).p95_response_time = 0
    ∧ (benchmark_streaming_performance rs t3).p95_response_time = 0 := by
  refine ⟨?_, ?_, ?_⟩
  · show p95_or_zero (ec_response_times rs) = 0
    rw [p95_or_zero, if_neg (by omega)]
  · show p95_or_zero (all_response_times crs) = 0
    rw [p95_or_zero, if_neg (by omega)]
  · show p95_or_zero (ec_response_times rs) = 0
    rw [p95_or_zero, if_neg (by omega)]

/-- C2 (witness): a benchmark over a single successful request (well under
20 samples) reports P95 = 0 in all three aggregations. -/
theorem c2_p95_small_sample_zero_witness :
    (benchmark_endpoint_caching [ReqOutcome.ok 1] 1).p95_response_time = 0
    ∧ (benchmark_concurrent_requests [[some 1]] 1 1 1).p95_response_time = 0
    ∧ (benchmark_streaming_performance [ReqOutcome.ok 1] 1).p95_response_time = 0 := by
  exact c2_p95_small_sample_zero [ReqOutcome.ok 1] [[some 1]] 1 1 1 1 1
    (by decide) (by decide)

/-- C3: the successful count plus the failed count equals the total count,
for `calculate_metrics` over any outcome list and for the benchmark
aggregations (whose successful count is the number of collected response
times). -/
theorem c3_success_plus_failed_eq_total (results : List TestResult)
    (crs : List (List (Option ℚ))) (c r : Nat) (t1 t2 : ℚ)
    (rs : List ReqOutcome) :
    ((calculate_metrics results).successful_tests
        + (calculate_metrics results).failed_tests
      = (calculate_metrics results).total_tests)
    ∧ (((all_response_times crs).length : Int)
        + (benchmark_concurrent_requests crs c r t2).failed_requests
      = (benchmark_concurrent_requests crs c r t2).total_requests)
    ∧ (((ec_response_times rs).length : Int)
        + (benchmark_endpoint_caching rs t1).failed_requests
      = (benchmark_endpoint_caching rs t1).total_requests) := by
  refine ⟨?_, ?_, ?_⟩
  · by_cases h : results = []
    · simp [calculate_metrics, h]
    · simp only [calculate_metrics, if_neg h]
      exact filter_split_length results (fun frame => frame.success)
  · show ((all_response_times crs).length : Int)
        + ((c * r : Nat) - (all_response_times crs).length : Int)
      = ((c * r : Nat) : Int)
    omega
  · show ((ec_response_times rs).length : Int) + (ec_failed_count rs : Int)
      = (rs.length : Int)
    have h := ec_split_length rs
    omega

/-- C4: every success rate equals successfulCount / totalCount × 100 with
the planned total (failures included) as denominator, and therefore lies
between 0 and 100: for `calculate_metrics`, for the endpoint-caching
benchmark, and for the concurrent benchmark whose planned total is
`concurrent × requests_per_client`. -/
theorem c4_success_rate (results : List TestResult) (rs : List ReqOutcome)
    (crs : List (List (Option ℚ))) (c r : Nat) (t1 t2 : ℚ)
    (hcr : crs.length = c) (hrc : ∀ cl ∈ crs, cl.length = r) :
    ((calculate_metrics results).success_rate
        = ((results.filter (fun frame => frame.success)).length : ℚ)
          / (results.length : ℚ) * 100
      ∧ 0 ≤ (calculate_metrics results).success_rate
      ∧ (calculate_metrics results).success_rate ≤ 100)
    ∧ ((benchmark_endpoint_caching rs t1).success_rate
        = ((ec_response_times rs).length : ℚ) / (rs.length : ℚ) * 100
      ∧ 0 ≤ (benchmark_endpoint_caching rs t1).success_rate
      ∧ (benchmark_endpoint_caching rs t1).success_rate ≤ 100)
    ∧ ((benchmark_concurrent_requests crs c r t2).success_rate
        = ((all_response_times crs).length : ℚ) / ((c * r : Nat) : ℚ) * 100
      ∧ 0 ≤ (benchmark_concurrent_requests crs c r t2).success_rate
      ∧ (benchmark_concurrent_requests crs c r t2).success_rate ≤ 100) := by
  have hm : (calculate_metrics results).success_rate
      = ((results.filter (fun frame => frame.success)).length : ℚ)
        / (results.length : ℚ) * 100 := by
    by_cases h : results = []
    · simp [calculate_metrics, h]
    · simp only [calculate_metrics, if_neg h]
      rw [if_pos]
      simpa [List.length_eq_zero] using h
  have hmb := rate_bounds (results.filter (fun frame => frame.success)).length
    results.length (List.length_filter_le _ _)
  have heb := rate_bounds (ec_response_times rs).length rs.length
    (List.length_filterMap_le _ _)
  have hclen : (all_response_times crs).length ≤ c * r := by
    rw [all_response_times, List.length_flatten]
    have hb : ∀ x ∈ (crs.map (fun times => times.filterMap id)).map List.length,
        x ≤ r := by
      intro x hx
      rw [List.mem_map] at hx
      obtain ⟨ys, hys, hxe⟩ := hx
      rw [List.mem_map] at hys
      obtain ⟨cl, hcl, hye⟩ := hys
      subst hxe
      subst hye
      calc (cl.filterMap id).length ≤ cl.length := List.length_filterMap_le _ _
        _ = r := hrc cl hcl
    calc ((crs.map (fun times => times.filterMap id)).map List.length).sum
        ≤ ((crs.map (fun times => times.filterMap id)).map List.length).length • r :=
          List.sum_le_card_nsmul _ _ hb
      _ = crs.length * r := by simp [smul_eq_mul]
      _ = c * r := by rw [hcr]
  have hcb := rate_bounds (all_response_times crs).length (c * r) hclen
  exact ⟨⟨hm, hm ▸ hmb.1, hm ▸ hmb.2⟩,
    ⟨rfl, heb.1, heb.2⟩,
    ⟨rfl, hcb.1, hcb.2⟩⟩

/-- C4 (witness): the bounds and the planned-total formula evaluated on a
one-client, one-request batch whose single request succeeded, and on a
two-outcome local batch with one failure. -/
theorem c4_success_rate_witness :
    (calculate_metrics [⟨"a", true, 1, 0, 0, ""⟩, ⟨"b", false, 1, 0, 0, "x"⟩]).success_rate
      = ((([⟨"a", true, 1, 0, 0, ""⟩, ⟨"b", false, 1, 0, 0, "x"⟩] : List TestResult).filter
            (fun frame => frame.success)).length : ℚ) / (2 : ℚ) * 100
    ∧ 0 ≤ (benchmark_endpoint_caching [ReqOutcome.ok 1] 1).success_rate
    ∧ (benchmark_concurrent_requests [[some 1]] 1 1 1).success_rate ≤ 100 := by
  have h := c4_success_rate [⟨"a", true, 1, 0, 0, ""⟩, ⟨"b", false, 1, 0, 0, "x"⟩]
    [ReqOutcome.ok 1] [[some 1]] 1 1 1 1 (by decide)
    (by intro cl hcl; simp at hcl; simp [hcl])
  exact ⟨h.1.1, h.2.1.2.1, h.2.2.2.2⟩

/-- C8 (witness): a 1500 ms response time with a 92% success rate and
300 MB memory misses the excellent row and matches the good row. -/
theorem c8_rating_first_match_wins_witness :
    get_performance_rating 1500 92 300 = "🟡 GOOD" := by
  exact (c8_rating_first_match_wins 1500 92 300).2.2.1.mpr
    ⟨by decide, by decide, by decide, by decide⟩

/-- C6 (counterexample): in `StreamingMonitor.test_streaming_request`, a
stream cut by a transport error after one well-formed chunk had
accumulated `chunks = 1` and content `"a"`, yet the returned record
reports `chunks = 0` and empty content — the accumulated counts are not
preserved, contradicting the claim for this executor. -/
theorem c6_transport_counterexample :
    ms_process_events msParseConst resetEvents 0 ""
      = (1, "a", some "Connection reset by peer")
    ∧ test_streaming_request msParseConst (fun _ => false) 0
        (HttpAttempt.got ⟨200, "", resetEvents⟩) 1
      = ⟨0, 0, 0, "", some (ErrInfo.transport "Connection reset by peer"), 1⟩ := by
  decide

/-- C6 (amended): a transport-level exception yields a failed outcome
whose error message is the transport error text in both executors, with
`status = 0` in the streaming monitor's record; the performance tester's
executor preserves whatever chunk/byte counts had accumulated before the
failure, while the streaming monitor's executor instead resets its chunk
count and content to zero/empty. -/
theorem c6_transport_failure_outcomes (parseOk : String → Bool)
    (parse : String → Option MSChunk) (jb : String → Bool) (tid rid : Nat)
    (msg et : String) (events : List StreamEvent) (dur : ℚ)
    (chunks bytes : Nat) (content : String) :
    (test_single_stream parseOk tid (HttpAttempt.failed msg) dur
      = ⟨"stream_" ++ toString tid, false, dur, 0, 0, msg⟩)
    ∧ (process_stream_lines parseOk events 0 0 = (chunks, bytes, some msg) →
        test_single_stream parseOk tid (HttpAttempt.got ⟨200, et, events⟩) dur
          = ⟨"stream_" ++ toString tid, false, dur, chunks, bytes, msg⟩)
    ∧ (test_streaming_request parse jb rid (HttpAttempt.failed msg) dur
      = ⟨rid, 0, 0, "", some (ErrInfo.transport msg), dur⟩)
    ∧ (ms_process_events parse events 0 "" = (chunks, content, some msg) →
        test_streaming_request parse jb rid (HttpAttempt.got ⟨200, et, events⟩) dur
          = ⟨rid, 0, 0, "", some (ErrInfo.transport msg), dur⟩) := by
  refine ⟨rfl, ?_, rfl, ?_⟩
  · intro h
    simp [test_single_stream, h]
  · intro h
    simp [test_streaming_request, h]

/-- C6 (witness): a stream cut by a timeout after one well-formed
one-byte chunk: the performance tester's executor reports the accumulated
chunk and byte counts with the transport text, and the streaming
monitor's executor reports a status-0 transport failure. -/
theorem c6_transport_failure_outcomes_witness :
    process_stream_lines (fun _ => true)
        [StreamEvent.line "data: x", StreamEvent.interrupted "timed out"] 0 0
      = (1, 1, some "timed out")
    ∧ test_single_stream (fun _ => true) 7
        (HttpAttempt.got ⟨200, "",
          [StreamEvent.line "data: x", StreamEvent.interrupted "timed out"]⟩) 1
      = ⟨"stream_7", false, 1, 1, 1, "timed out"⟩
    ∧ test_streaming_request msParseConst (fun _ => false) 3
        (HttpAttempt.failed "connection refused") 1
      = ⟨3, 0, 0, "", some (ErrInfo.transport "connection refused"), 1⟩ := by
  have h := c6_transport_failure_outcomes (fun _ => true) msParseConst
    (fun _ => false) 7 3 "timed out" ""
    [StreamEvent.line "data: x", StreamEvent.interrupted "timed out"] 1 1 1 ""
  have h2 := c6_transport_failure_outcomes (fun _ => true) msParseConst
    (fun _ => false) 7 3 "connection refused" "" [] 1 0 0 ""
  exact ⟨by decide, h.2.1 (by decide), h2.2.2.1⟩

/-- C7: a `"data: [DONE]"` line stops the decoder without consuming the
rest of the input; a data line whose payload fails to parse is skipped
without aborting; a streaming request that received HTTP 200 and whose
body is a plain line sequence yields `success = true`; and when every
payload is malformed the outcome counts zero chunks and zero bytes but is
still successful. -/
theorem c7_decoder_resilience (parseOk : String → Bool)
    (rest : List StreamEvent) (chunks bytes : Nat) (l et : String)
    (tid : Nat) (dur : ℚ) (lines : List String) :
    (process_stream_lines parseOk (StreamEvent.line "data: [DONE]" :: rest)
        chunks bytes
      = (chunks, bytes, none))
    ∧ (pyStartsWith (pyStrip l) "data: " = true →
        pyStrip (pySliceFrom (pyStrip l) 6) ≠ "[DONE]" →
        parseOk (pyStrip (pySliceFrom (pyStrip l) 6)) = false →
        process_stream_lines parseOk (StreamEvent.line l :: rest) chunks bytes
          = process_stream_lines parseOk rest chunks bytes)
    ∧ ((test_single_stream parseOk tid
          (HttpAttempt.got ⟨200, et, lines.map StreamEvent.line⟩) dur).success
        = true)
    ∧ ((∀ x, parseOk x = false) →
        test_single_stream parseOk tid
            (HttpAttempt.got ⟨200, et, lines.map StreamEvent.line⟩) dur
          = ⟨"stream_" ++ toString tid, true, dur, 0, 0, ""⟩) := by
  refine ⟨rfl, ?_, ?_, ?_⟩
  · intro h1 h2 h3
    simp only [process_stream_lines]
    rw [if_pos h1, if_neg h2, if_neg (by simp [h3])]
  · obtain ⟨c2, b2, h⟩ := process_lines_complete parseOk lines 0 0
    simp [test_single_stream, h]
  · intro hpm
    have h := process_lines_all_malformed parseOk hpm lines 0 0
    simp [test_single_stream, h]

/-- C7 (witness): the spec's example — a malformed line followed by the
sentinel — yields a successful outcome with zero chunks and zero bytes,
and the sentinel line alone stops the decoder. -/
theorem c7_decoder_resilience_witness :
    process_stream_lines (fun _ => false)
        [StreamEvent.line "data: [DONE]", StreamEvent.interrupted "cut"] 4 9
      = (4, 9, none)
    ∧ test_single_stream (fun _ => false) 0
        (HttpAttempt.got ⟨200, "",
          ["data: \x7bbad json", "data: [DONE]"].map StreamEvent.line⟩) 1
      = ⟨"stream_0", true, 1, 0, 0, ""⟩ := by
  have h := c7_decoder_resilience (fun _ => false)
    [StreamEvent.interrupted "cut"] 4 9 "" "" 0 1
    ["data: \x7bbad json", "data: [DONE]"]
  exact ⟨h.1, h.2.2.2 (fun x => rfl)⟩

/-- C9: a poll cycle whose metrics fetch fails renders the unreachable
view, leaves the stored previous snapshot unchanged and never terminates
the loop (also at the loop level: a failed-fetch cycle contributes an
unreachable view and continues with the same state); a cycle whose fetch
succeeds renders a dashboard whose trends are computed against the stored
previous snapshot, which the new snapshot then replaces. -/
theorem c9_poll_loop_resilience (last : Option Snapshot) (hl : Option Health)
    (m : Snapshot) (v : DashView) :
    (runStep last ⟨none, hl⟩ = Except.ok (last, CycleView.unreachable))
    ∧ (display_dashboard last m hl = Except.ok v →
        runStep last ⟨some m, hl⟩ = Except.ok (some m, CycleView.dash v)
        ∧ v.trends = calculate_trends last m)
    ∧ (∀ rest : List CycleInput,
        runLoop last (⟨none, hl⟩ :: rest)
          = (runLoop last rest).map (fun p => (p.1, CycleView.unreachable :: p.2))) := by
  refine ⟨rfl, ?_, ?_⟩
  · intro h
    have hz : m.streams.maxConcurrent.getD 1 ≠ 0 := by
      intro hz
      simp [display_dashboard, hz] at h
    refine ⟨by simp [runStep, h], ?_⟩
    simp only [display_dashboard] at h
    rw [if_neg hz] at h
    have hv := Except.ok.inj h
    rw [← hv]
  · intro rest
    simp [runLoop, runStep]

/-- C9 (witness): with no stored snapshot, a failed-fetch cycle keeps the
empty slot and reports unreachable, and a successful fetch of `dashSnap`
renders initial trends and stores the snapshot. -/
theorem c9_poll_loop_resilience_witness :
    runStep none ⟨none, none⟩ = Except.ok (none, CycleView.unreachable)
    ∧ runStep none ⟨some dashSnap, none⟩
        = Except.ok (some dashSnap, CycleView.dash dashView0)
    ∧ dashView0.trends = calculate_trends none dashSnap := by
  have hd : display_dashboard none dashSnap none = Except.ok dashView0 := by
    norm_num [display_dashboard, calculate_trends, dashSnap, dashView0]
  have h := c9_poll_loop_resilience none none dashSnap dashView0
  exact ⟨h.1, (h.2.1 hd).1, (h.2.1 hd).2⟩

end CopilotHarness
